import Mathlib

/-
Verification development for the cancelbot repository (Re:amaze + Claude +
Amazon SP-API order-cancellation pipeline).

Shallow embedding of the Python sources:
  * utils.py    — normalize_shopify_order_id
  * classify.py — classify_ticket and its helpers (_extract_text, _coerce_json)
  * amazon.py   — _creds, build_cancel_payload, cancel_mcf_fulfillment
  * app.py      — main (the decision pipeline, from the point where the
                  classification dict is available)
  * storage.py  — log_action (modelled as an emitted audit event)

Python dynamic values are embedded as the JSON-like type `JVal`; Python
exceptions as `PyExn` carried in `Except`/`Option`; external collaborators
(the Anthropic client, the sp_api client, the Re:amaze HTTP helpers) as
oracles supplying their observable outcomes for the single run.
-/

/-! ## Python string primitives (ASCII fragment used by the repository) -/

/-- Python `str.strip()` restricted to ASCII whitespace (space, tab, CR, LF),
which covers every string this code base manipulates. -/
def pyStrip (s : String) : String :=
  String.mk (((s.data.dropWhile Char.isWhitespace).reverse.dropWhile Char.isWhitespace).reverse)

/-- Python `str.lower()` on the ASCII fragment. -/
def pyLower (s : String) : String :=
  String.mk (s.data.map Char.toLower)

/-- Python `s.startswith(pre)`. -/
def pyStartsWith (s pre : String) : Bool :=
  pre.data.isPrefixOf s.data

/-- Substring membership on character lists: `needle` occurs contiguously in `hay`. -/
def containsSub (hay needle : List Char) : Bool :=
  match hay with
  | [] => needle.isEmpty
  | _ :: t => needle.isPrefixOf hay || containsSub t needle

/-- Python `sub in s` (substring containment). -/
def pyIn (sub s : String) : Bool :=
  containsSub s.data sub.data

/-- Python truthiness of an optional string (`None` and `""` are falsy). -/
def pyTruthyStr : Option String → Bool
  | none => false
  | some s => s ≠ ""

/-- Python `a or b` on optional strings (`None`/`""` falsy). -/
def pyOrStr (a b : Option String) : Option String :=
  if pyTruthyStr a then a else b

/-! ## utils.py — normalize_shopify_order_id -/

/-- Embedding of `utils.normalize_shopify_order_id`.  `re.sub(r"[^\d]", "", s)`
is character filtering by `Char.isDigit` (the repository only meets ASCII
digits). -/
def normalize_shopify_order_id (s : String) : String :=
  let s := pyStrip s
  if s = "" then s
  else
    let digits := String.mk (s.data.filter Char.isDigit)
    if digits ≠ "" ∧ (digits = s ∨ pyStartsWith (pyLower s) "order" ∨ pyStartsWith (pyLower s) "shopify") then
      "Shopify #" ++ digits ++ ".1"
    else if pyStartsWith (pyLower s) "shopify #" ∧ ¬ (pyIn ".1" s) then
      s ++ ".1"
    else s

/-! ### Facts about normalize -/

theorem isDigit_not_isWhitespace {c : Char} (h : c.isDigit = true) :
    c.isWhitespace = false := by
  simp [Char.isDigit] at h
  simp [Char.isWhitespace]
  refine ⟨⟨⟨?_, ?_⟩, ?_⟩, ?_⟩ <;> (intro hc; subst hc; exact absurd h (by decide))

theorem dropWhile_isWhitespace_of_all_digit {l : List Char}
    (h : ∀ c ∈ l, c.isDigit = true) : l.dropWhile Char.isWhitespace = l := by
  cases l with
  | nil => rfl
  | cons c t =>
      have hd : c.isDigit = true := h c (List.mem_cons_self c t)
      simp [List.dropWhile, isDigit_not_isWhitespace hd]

theorem pyStrip_of_all_digit {s : String}
    (h : ∀ c ∈ s.data, c.isDigit = true) : pyStrip s = s := by
  unfold pyStrip
  rw [dropWhile_isWhitespace_of_all_digit h]
  rw [dropWhile_isWhitespace_of_all_digit (by intro c hc; exact h c (List.mem_reverse.mp hc))]
  rw [List.reverse_reverse]

theorem filter_isDigit_of_all_digit {l : List Char}
    (h : ∀ c ∈ l, c.isDigit = true) : l.filter Char.isDigit = l :=
  List.filter_eq_self.mpr h

theorem mk_data_eq (s : String) : String.mk s.data = s := by
  cases s
  rfl

/-- C7: every non-empty all-digit raw order id is rewritten to the canonical
form `"Shopify #<digits>.1"`, and the empty string is returned unchanged. -/
theorem C7_normalize_pure_digits (s : String) (hne : s ≠ "")
    (hd : ∀ c ∈ s.data, c.isDigit = true) :
    normalize_shopify_order_id s = "Shopify #" ++ s ++ ".1" ∧
      normalize_shopify_order_id "" = "" := by
  constructor
  · unfold normalize_shopify_order_id
    simp only [pyStrip_of_all_digit hd, filter_isDigit_of_all_digit hd, mk_data_eq]
    rw [if_neg hne]
    rw [if_pos ⟨hne, Or.inl trivial⟩]
  · rfl

/-- C7 witness: the normalizer evaluated at the spec's example `"91057"`. -/
theorem C7_normalize_pure_digits_witness :
    normalize_shopify_order_id "91057" = "Shopify #91057.1" ∧
      normalize_shopify_order_id "" = "" :=
  C7_normalize_pure_digits "91057" (by decide) (by decide)

/-- C2 counterexample: `normalize` is not idempotent.  On the spec's own
example, `normalize "Shopify #12345" = "Shopify #12345.1"`, but a second
application strips the dot into the digit run and yields
`"Shopify #123451.1"`, because the digit-coercion branch fires for any
string starting with `"shopify"`. -/
theorem C2_normalize_not_idempotent_cex :
    normalize_shopify_order_id "Shopify #12345" = "Shopify #12345.1" ∧
      normalize_shopify_order_id (normalize_shopify_order_id "Shopify #12345") ≠
        normalize_shopify_order_id "Shopify #12345" := by
  constructor
  · decide
  · decide

/-- C2 amended (part): `normalize "Shopify #12345"` does return `"Shopify #12345.1"`,
but `normalize "Shopify #12345.1"` is not left unchanged: it is mangled to
`"Shopify #123451.1"` (the digit-coercion rule strips the `"."` out of the
digit run and re-suffixes `".1"`), so normalize is not idempotent. -/
theorem C2_normalize_example_and_mangling :
    normalize_shopify_order_id "Shopify #12345" = "Shopify #12345.1" ∧
      normalize_shopify_order_id "Shopify #12345.1" = "Shopify #123451.1" := by
  constructor
  · decide
  · decide

/-! ## Embedded Python/JSON dynamic values -/

/-- Dynamic values flowing through the pipeline: the JSON values produced by
`json.loads` and the Python values the app passes around (`None` = `jnull`,
strings, booleans, integers, lists, dicts).  JSON floats do not occur in this
repository's data and are not modelled (the embedded parser rejects them). -/
inductive JVal where
  | jnull
  | jbool (b : Bool)
  | jnum (n : Int)
  | jstr (s : String)
  | jarr (xs : List JVal)
  | jobj (fields : List (String × JVal))
deriving Repr

/-- Python dict lookup `d.get(k)` on an embedded JSON object (last binding
wins, matching how the embedded parser stores duplicate keys). -/
def jget (d : List (String × JVal)) (k : String) : Option JVal :=
  match d with
  | [] => none
  | (k2, v) :: t => if k2 = k then some v else jget t k

/-- Python `dict.setdefault k v`: keep an existing binding, else append one. -/
def jsetdefault (d : List (String × JVal)) (k : String) (v : JVal) :
    List (String × JVal) :=
  match jget d k with
  | some _ => d
  | none => d ++ [(k, v)]

/-- Update/insert a binding, as Python `d[k] = v` observed through `get`. -/
def jput (d : List (String × JVal)) (k : String) (v : JVal) :
    List (String × JVal) :=
  (d.filter (fun p => p.1 ≠ k)) ++ [(k, v)]

/-- Python truthiness of an embedded dynamic value. -/
def pyTruthy : JVal → Bool
  | .jnull => false
  | .jbool b => b
  | .jnum n => n ≠ 0
  | .jstr s => s ≠ ""
  | .jarr xs => ¬ xs.isEmpty
  | .jobj fs => ¬ fs.isEmpty

/-! ## json.loads (the strict-JSON fragment used by classify.py) -/

/-- JSON whitespace characters accepted between tokens by `json.loads`. -/
def jsonWs (c : Char) : Bool :=
  c = ' ' ∨ c = '\t' ∨ c = '\n' ∨ c = '\x0d'

def skipWs (cs : List Char) : List Char :=
  match cs with
  | [] => []
  | c :: t => if jsonWs c then skipWs t else c :: t

def hexVal (c : Char) : Option Nat :=
  if '0' ≤ c ∧ c ≤ '9' then some (c.toNat - '0'.toNat)
  else if 'a' ≤ c ∧ c ≤ 'f' then some (c.toNat - 'a'.toNat + 10)
  else if 'A' ≤ c ∧ c ≤ 'F' then some (c.toNat - 'A'.toNat + 10)
  else none

/-- Body of a JSON string literal (after the opening quote): plain characters,
the standard single-character escapes, and `\uXXXX` for scalar code points. -/
def parseStringBody (fuel : Nat) (cs : List Char) (acc : List Char) :
    Option (String × List Char) :=
  match fuel with
  | 0 => none
  | f + 1 =>
    match cs with
    | [] => none
    | c :: rest =>
      if c = '"' then some (String.mk acc.reverse, rest)
      else if c = '\\' then
        match rest with
        | [] => none
        | e :: rest2 =>
          if e = '"' then parseStringBody f rest2 ('"' :: acc)
          else if e = '\\' then parseStringBody f rest2 ('\\' :: acc)
          else if e = '/' then parseStringBody f rest2 ('/' :: acc)
          else if e = 'n' then parseStringBody f rest2 ('\n' :: acc)
          else if e = 't' then parseStringBody f rest2 ('\t' :: acc)
          else if e = 'r' then parseStringBody f rest2 ('\x0d' :: acc)
          else if e = 'b' then parseStringBody f rest2 ('\x08' :: acc)
          else if e = 'f' then parseStringBody f rest2 ('\x0c' :: acc)
          else if e = 'u' then
            match rest2 with
            | h1 :: h2 :: h3 :: h4 :: rest3 =>
              match hexVal h1, hexVal h2, hexVal h3, hexVal h4 with
              | some a, some b, some c2, some d =>
                let code := ((a * 16 + b) * 16 + c2) * 16 + d
                if code < 0xd800 then
                  parseStringBody f rest3 (Char.ofNat code :: acc)
                else none
              | _, _, _, _ => none
            | _ => none
          else none
      else if c.toNat < 32 then none
      else parseStringBody f rest (c :: acc)

def digitsToInt (acc : Int) (ds : List Char) : Int :=
  match ds with
  | [] => acc
  | d :: t => digitsToInt (acc * 10 + (d.toNat - '0'.toNat : Int)) t

/-- JSON integer literal: optional minus, then either `0` or a nonzero-led
digit run.  A following `.`, `e` or `E` (a float) is rejected: floats are
outside the modelled fragment. -/
def parseNumber (cs : List Char) : Option (JVal × List Char) :=
  let (neg, cs1) := match cs with
    | '-' :: t => (true, t)
    | _ => (false, cs)
  match cs1 with
  | [] => none
  | d :: _ =>
    if d.isDigit then
      let digits := cs1.takeWhile Char.isDigit
      let rest := cs1.dropWhile Char.isDigit
      if digits.length > 1 ∧ d = '0' then none
      else
        match rest with
        | '.' :: _ => none
        | 'e' :: _ => none
        | 'E' :: _ => none
        | _ =>
          let n := digitsToInt 0 digits
          some (.jnum (if neg then -n else n), rest)
    else none

mutual

/-- One JSON value, starting at the given characters (leading whitespace
already consumed). -/
def parseValue (fuel : Nat) (cs : List Char) : Option (JVal × List Char) :=
  match fuel with
  | 0 => none
  | f + 1 =>
    match cs with
    | [] => none
    | c :: rest =>
      if c = 'n' then
        match rest with
        | 'u' :: 'l' :: 'l' :: rest2 => some (.jnull, rest2)
        | _ => none
      else if c = 't' then
        match rest with
        | 'r' :: 'u' :: 'e' :: rest2 => some (.jbool true, rest2)
        | _ => none
      else if c = 'f' then
        match rest with
        | 'a' :: 'l' :: 's' :: 'e' :: rest2 => some (.jbool false, rest2)
        | _ => none
      else if c = '"' then
        match parseStringBody fuel rest [] with
        | some (s, rest2) => some (.jstr s, rest2)
        | none => none
      else if c = '{' then
        match skipWs rest with
        | '}' :: rest2 => some (.jobj [], rest2)
        | rest1 => parseMembers f rest1 []
      else if c = '[' then
        match skipWs rest with
        | ']' :: rest2 => some (.jarr [], rest2)
        | rest1 => parseElems f rest1 []
      else
        parseNumber cs

/-- Members of a JSON object, positioned at a key string. -/
def parseMembers (fuel : Nat) (cs : List Char) (acc : List (String × JVal)) :
    Option (JVal × List Char) :=
  match fuel with
  | 0 => none
  | f + 1 =>
    match cs with
    | '"' :: rest =>
      match parseStringBody fuel rest [] with
      | some (k, rest2) =>
        match skipWs rest2 with
        | ':' :: rest3 =>
          match parseValue f (skipWs rest3) with
          | some (v, rest4) =>
            let acc2 := jput acc k v
            match skipWs rest4 with
            | ',' :: rest5 => parseMembers f (skipWs rest5) acc2
            | '}' :: rest5 => some (.jobj acc2, rest5)
            | _ => none
          | none => none
        | _ => none
      | none => none
    | _ => none

/-- Elements of a JSON array, positioned at a value. -/
def parseElems (fuel : Nat) (cs : List Char) (acc : List JVal) :
    Option (JVal × List Char) :=
  match fuel with
  | 0 => none
  | f + 1 =>
    match parseValue f cs with
    | some (v, rest) =>
      match skipWs rest with
      | ',' :: rest2 => parseElems f (skipWs rest2) (acc ++ [v])
      | ']' :: rest2 => some (.jarr (acc ++ [v]), rest2)
      | _ => none
    | none => none

end

/-- Embedding of strict `json.loads` on the modelled fragment: a single JSON
value with optional surrounding whitespace. -/
def json_loads (s : String) : Option JVal :=
  match parseValue (4 * s.data.length + 16) (skipWs s.data) with
  | some (v, rest) =>
    match skipWs rest with
    | [] => some v
    | _ => none
  | none => none

/-! ## classify.py — classifier embedding

The Anthropic client is an external collaborator; its observable behaviour in
one run is an oracle mapping each candidate model name to the outcome of
`client.messages.create` for this run's message. -/

/-- One content block of an Anthropic response, seen through `getattr`:
either attribute may be absent (`none`). -/
structure ContentBlock where
  type : Option String
  text : Option String

/-- Outcome of `client.messages.create(model, ...)` for one candidate model:
a `NotFoundError`, some other exception, or a response with content blocks
(`getattr(resp, "content", []) or []` makes an absent/`None` content list
indistinguishable from `[]`, so the response is just its block list). -/
inductive ModelOutcome where
  | notFound (msg : String)
  | otherErr (msg : String)
  | resp (content : List ContentBlock)

/-- Environment read by classify.py (`os.getenv`). -/
structure ClassifyEnv where
  ANTHROPIC_API_KEY : Option String
  ANTHROPIC_MODEL : Option String

/-- Embedding of `classify._extract_text`: concatenate the `text` of blocks
whose `type` is `"text"` (absent text defaulting to `""`), then strip. -/
def extract_text (content : List ContentBlock) : String :=
  pyStrip (String.join (content.filterMap fun b =>
    if b.type = some "text" then some (b.text.getD "") else none))

/-- Embedding of the `re.search(r"\x7b.*\x7d", txt, flags=re.DOTALL)` repair
pass in `_coerce_json`: with a greedy dot-matches-all scan this is the span
from the first `\x7b` to the last `\x7d`, when the latter comes after the
former. -/
def braceSpan (txt : String) : Option String :=
  let cs := txt.data
  match cs.findIdx? (fun c => c = '{') with
  | none => none
  | some i =>
    match cs.reverse.findIdx? (fun c => c = '}') with
    | none => none
    | some jr =>
      let j := cs.length - 1 - jr
      if i < j then some (String.mk ((cs.drop i).take (j - i + 1))) else none

/-- Embedding of `classify._coerce_json`: strict `json.loads` first, then the
brace-span repair pass; `.error` carries the raised exception's message. -/
def coerce_json (txt : String) : Except String JVal :=
  match json_loads txt with
  | some v => .ok v
  | none =>
    match braceSpan txt with
    | some sub =>
      match json_loads sub with
      | some v => .ok v
      | none => .error "Expecting value (JSONDecodeError on brace span)"
    | none => .error "No valid JSON object found."

/-- The module-level `FALLBACK_MODELS` list: the `ANTHROPIC_MODEL` override
(stripped) first, then the fixed candidates, with empty entries filtered out. -/
def FALLBACK_MODELS (env : ClassifyEnv) : List String :=
  ([pyStrip (env.ANTHROPIC_MODEL.getD "")] ++
    ["claude-sonnet-4-20250514",
     "claude-3-7-sonnet-20250219",
     "claude-3-5-haiku-20241022",
     "claude-3-haiku-20240307"]).filter (fun m => m ≠ "")

/-- The module-level default classification `_DEF` with its rationale field
overridden (`out = dict(_DEF); out["rationale"] = r`). -/
def defaultClassification (rationale : String) : List (String × JVal) :=
  [("intent", .jstr "not_cancellation"),
   ("order_id", .jnull),
   ("is_subscription_related", .jbool false),
   ("urgency", .jstr "normal"),
   ("rationale", .jstr rationale)]

/-- The "minimal normalization" block: `data.setdefault(...)` for each of the
five expected keys. -/
def applyDefaults (d : List (String × JVal)) : List (String × JVal) :=
  let d := jsetdefault d "intent" (.jstr "not_cancellation")
  let d := jsetdefault d "order_id" .jnull
  let d := jsetdefault d "is_subscription_related" (.jbool false)
  let d := jsetdefault d "urgency" (.jstr "normal")
  jsetdefault d "rationale" (.jstr "")

/-- One iteration of the model loop for a single candidate: `.ok` is the
dict returned from inside the `try`; `.error` is the `last_err` string the
two `except` arms record before continuing.  Every exception raised inside
the loop body (empty text → `ValueError`, JSON failures, `.setdefault` on a
non-dict → `AttributeError`) is caught by `except Exception`. -/
def attempt_model (behavior : String → ModelOutcome) (model : String) :
    Except String (List (String × JVal)) :=
  match behavior model with
  | .notFound msg => .error ("Model not found: " ++ model ++ " (" ++ msg ++ ")")
  | .otherErr msg => .error ("Anthropic error on " ++ model ++ ": " ++ msg)
  | .resp content =>
    let txt := extract_text content
    if txt = "" then
      .error ("Anthropic error on " ++ model ++ ": Empty text returned from model.")
    else
      match coerce_json txt with
      | .error emsg => .error ("Anthropic error on " ++ model ++ ": " ++ emsg)
      | .ok (.jobj fields) => .ok (applyDefaults fields)
      | .ok _ =>
        .error ("Anthropic error on " ++ model ++
          ": AttributeError: object has no attribute setdefault")

/-- The `for model in FALLBACK_MODELS` loop with its `last_err` accumulator,
and the fall-through default after exhaustion. -/
def classify_loop (behavior : String → ModelOutcome) :
    List String → Option String → List (String × JVal)
  | [], last_err =>
    match last_err with
    | some e => defaultClassification ("Classifier fallback: " ++ e)
    | none => defaultClassification "Classifier fallback."
  | m :: rest, _last_err =>
    match attempt_model behavior m with
    | .ok d => d
    | .error e => classify_loop behavior rest (some e)

/-- Embedding of `classify.classify_ticket`.  The message text only reaches
the provider, whose behaviour for this run is the `behavior` oracle, so the
result is determined by the environment and the oracle. -/
def classify_ticket (env : ClassifyEnv) (behavior : String → ModelOutcome)
    (_message_text : String) : List (String × JVal) :=
  if ¬ pyTruthyStr env.ANTHROPIC_API_KEY then
    defaultClassification "No ANTHROPIC_API_KEY set."
  else
    classify_loop behavior (FALLBACK_MODELS env) none

/-! ### Classifier theorems -/

theorem append_ne_empty_left (a b : String) (h : a ≠ "") : a ++ b ≠ "" := by
  intro hc
  apply h
  have hd : a.data ++ b.data = [] := by
    have := congrArg String.data hc
    simpa [String.data_append] using this
  have ha : a.data = [] := (List.append_eq_nil.mp hd).1
  cases a
  simp_all

theorem jget_defaultClassification_intent (r : String) :
    jget (defaultClassification r) "intent" = some (.jstr "not_cancellation") := rfl

theorem jget_defaultClassification_rationale (r : String) :
    jget (defaultClassification r) "rationale" = some (.jstr r) := rfl

theorem classify_loop_all_fail (behavior : String → ModelOutcome)
    (ms : List String) (last_err : Option String)
    (hall : ∀ m ∈ ms, ∃ e, attempt_model behavior m = .error e) :
    ∃ r, classify_loop behavior ms last_err = defaultClassification r ∧ r ≠ "" := by
  induction ms generalizing last_err with
  | nil =>
      cases last_err with
      | none => exact ⟨"Classifier fallback.", rfl, by decide⟩
      | some e =>
          exact ⟨"Classifier fallback: " ++ e, rfl,
            append_ne_empty_left _ _ (by decide)⟩
  | cons m rest ih =>
      obtain ⟨e, he⟩ := hall m (List.mem_cons_self m rest)
      have hrest : ∀ m2 ∈ rest, ∃ e2, attempt_model behavior m2 = .error e2 :=
        fun m2 hm2 => hall m2 (List.mem_cons_of_mem m hm2)
      obtain ⟨r, hr, hrne⟩ := ih (some e) hrest
      refine ⟨r, ?_, hrne⟩
      simp only [classify_loop, he]
      exact hr

/-- C3: `classify_ticket` is a total function of the environment and the
provider's observable behaviour (no exception escapes: every failure inside
the loop body is absorbed), and whenever every candidate model fails it
returns the default classification — intent `"not_cancellation"` with all
default fields — whose rationale is a non-empty failure description. -/
theorem C3_classifier_never_raises_default_on_total_failure
    (env : ClassifyEnv) (behavior : String → ModelOutcome) (txt : String)
    (hall : ∀ m ∈ FALLBACK_MODELS env, ∃ e, attempt_model behavior m = .error e) :
    ∃ r, classify_ticket env behavior txt = defaultClassification r ∧ r ≠ "" ∧
      jget (classify_ticket env behavior txt) "intent" =
        some (.jstr "not_cancellation") := by
  unfold classify_ticket
  by_cases hk : pyTruthyStr env.ANTHROPIC_API_KEY = true
  · rw [if_neg (not_not_intro hk)]
    obtain ⟨r, hr, hrne⟩ := classify_loop_all_fail behavior (FALLBACK_MODELS env) none hall
    exact ⟨r, hr, hrne, by rw [hr]; exact jget_defaultClassification_intent r⟩
  · rw [if_pos hk]
    exact ⟨"No ANTHROPIC_API_KEY set.", rfl, by decide,
      jget_defaultClassification_intent _⟩

/-- C3 witness: a run with a configured key in which the provider reports
every candidate model as not found. -/
theorem C3_witness :
    ∃ r, classify_ticket ⟨some "k", none⟩ (fun _ => .notFound "404") "cancel my order" =
        defaultClassification r ∧ r ≠ "" ∧
      jget (classify_ticket ⟨some "k", none⟩ (fun _ => .notFound "404") "cancel my order")
          "intent" = some (.jstr "not_cancellation") :=
  C3_classifier_never_raises_default_on_total_failure ⟨some "k", none⟩
    (fun _ => .notFound "404") "cancel my order"
    (fun m _ => ⟨"Model not found: " ++ m ++ " (" ++ "404" ++ ")", rfl⟩)

/-- C5 counterexample: a successful model parse of a partial JSON object
leaves `rationale` as the empty string — `setdefault("rationale", "")`
defaults the missing field to `""`, so a returned Classification can have an
empty rationale. -/
theorem C5_empty_rationale_cex :
    jget (classify_ticket ⟨some "k", none⟩
        (fun _ => .resp [⟨some "text",
          some "\x7b\"intent\":\"cancel_order\",\"order_id\":\"91057\"\x7d"⟩])
        "please cancel order 91057")
      "rationale" = some (.jstr "") := rfl

/-- C5 amended: the rationale is non-empty on the credential-missing path and
on the total-fallback path, but a successful model parse with the
`rationale` field absent defaults it to the empty string, so the returned
rationale is not never-empty. -/
theorem C5_rationale_on_fallback_paths
    (env : ClassifyEnv) (behavior : String → ModelOutcome) (txt : String) :
    (¬ pyTruthyStr env.ANTHROPIC_API_KEY →
      jget (classify_ticket env behavior txt) "rationale" =
        some (.jstr "No ANTHROPIC_API_KEY set.")) ∧
    ((∀ m ∈ FALLBACK_MODELS env, ∃ e, attempt_model behavior m = .error e) →
      ∃ r, jget (classify_ticket env behavior txt) "rationale" =
          some (.jstr r) ∧ r ≠ "") := by
  constructor
  · intro hk
    unfold classify_ticket
    rw [if_pos hk]
    exact jget_defaultClassification_rationale _
  · intro hall
    unfold classify_ticket
    by_cases hk : pyTruthyStr env.ANTHROPIC_API_KEY = true
    · rw [if_neg (not_not_intro hk)]
      obtain ⟨r, hr, hrne⟩ := classify_loop_all_fail behavior (FALLBACK_MODELS env) none hall
      exact ⟨r, by rw [hr]; exact jget_defaultClassification_rationale r, hrne⟩
    · rw [if_pos hk]
      exact ⟨"No ANTHROPIC_API_KEY set.", jget_defaultClassification_rationale _, by decide⟩

/-- C5 amended witness: both fallback paths evaluated at concrete runs — a
run with no key, and a keyed run in which every model errors. -/
theorem C5_rationale_on_fallback_paths_witness :
    jget (classify_ticket ⟨none, none⟩ (fun _ => .notFound "x") "hi") "rationale" =
        some (.jstr "No ANTHROPIC_API_KEY set.") ∧
      ∃ r, jget (classify_ticket ⟨some "k", none⟩ (fun _ => .otherErr "boom") "hi")
          "rationale" = some (.jstr r) ∧ r ≠ "" := by
  constructor
  · exact (C5_rationale_on_fallback_paths ⟨none, none⟩ (fun _ => .notFound "x") "hi").1
      (by decide)
  · exact (C5_rationale_on_fallback_paths ⟨some "k", none⟩ (fun _ => .otherErr "boom") "hi").2
      (fun m _ => ⟨"Anthropic error on " ++ m ++ ": " ++ "boom", rfl⟩)

/-! ## amazon.py — Fulfillment Adapter embedding

The sp_api library is an external collaborator.  Its observable behaviour in
one run is an oracle: the outcome of the imports, of each constructor
signature shape (0: `use_sandbox=`, 1: `sandbox=`, 2: positional-free), and
of each cancel-call signature shape (0: `seller_fulfillment_order_id=`,
1: `sellerFulfillmentOrderId=`, 2: positional).  A `typeError` outcome of a
shape is a Python-side binding rejection (no request performed); the other
outcomes are results of an executed call. -/

/-- Embedded Python exceptions that can escape the modelled functions. -/
inductive PyExn where
  | keyError (key : String)
  | typeError (msg : String)
  | attributeError (msg : String)
  | otherExn (msg : String)
deriving Repr

/-- Process environment read by amazon.py. -/
structure SpEnv where
  REFRESH_TOKEN : Option String
  LWA_CLIENT_ID : Option String
  LWA_APP_ID : Option String
  LWA_CLIENT_SECRET : Option String
  AWS_ACCESS_KEY_ID : Option String
  AWS_SECRET_ACCESS_KEY : Option String
  AWS_SELLER_PARTNER_ROLE_ARN : Option String
  SPAPI_SANDBOX : Option String

/-- The credential bundle built by `amazon._creds`. -/
structure Creds where
  refresh_token : String
  lwa_app_id : Option String
  lwa_client_secret : String
  aws_access_key : String
  aws_secret_key : String
  role_arn : Option String

/-- `os.environ[name]`: raises `KeyError` when the variable is absent. -/
def environGet (v : Option String) (name : String) : Except PyExn String :=
  match v with
  | some s => .ok s
  | none => .error (.keyError name)

/-- Embedding of `amazon._creds` (note: `os.environ[...]` lookups raise
`KeyError` when a required variable is absent; this is not caught anywhere
in `cancel_mcf_fulfillment`). -/
def _creds (env : SpEnv) : Except PyExn Creds := do
  let rt ← environGet env.REFRESH_TOKEN "REFRESH_TOKEN"
  let app_id := pyOrStr env.LWA_CLIENT_ID env.LWA_APP_ID
  let secret ← environGet env.LWA_CLIENT_SECRET "LWA_CLIENT_SECRET"
  let ak ← environGet env.AWS_ACCESS_KEY_ID "AWS_ACCESS_KEY_ID"
  let sk ← environGet env.AWS_SECRET_ACCESS_KEY "AWS_SECRET_ACCESS_KEY"
  let role_arn := pyStrip (env.AWS_SELLER_PARTNER_ROLE_ARN.getD "")
  pure { refresh_token := rt, lwa_app_id := app_id, lwa_client_secret := secret,
         aws_access_key := ak, aws_secret_key := sk,
         role_arn := if role_arn ≠ "" then some role_arn else none }

/-- Embedding of `amazon.build_cancel_payload` (pure payload construction). -/
def build_cancel_payload (order_id : String) : List (String × JVal) :=
  [("operation", .jstr "cancel_fulfillment_order"),
   ("sellerFulfillmentOrderId", .jstr order_id),
   ("reasonCode", .jstr "CustomerRequest"),
   ("comment", .jstr "Automated cancellation request")]

/-- Outcome of the two import attempts at the top of
`cancel_mcf_fulfillment`: the current class name, the older fallback name, or
both failing with the second exception's message. -/
inductive ImportOutcome where
  | newOk
  | oldOk
  | bothFail (msg : String)

/-- Outcome of one constructor signature shape. -/
inductive CtorResult where
  | ok
  | typeError (msg : String)
  | raised (msg : String)

/-- Outcome of one cancel-call signature shape.  `accepted` carries the
response together with its optional `payload` attribute
(`getattr(resp, "payload", resp)`). -/
inductive CallResult where
  | accepted (resp : JVal) (payloadAttr : Option JVal)
  | typeError (msg : String)
  | sellingApiError (msg : String)
  | raised (msg : String)

/-- Observable behaviour of the sp_api collaborator for one run. -/
structure SpOracle where
  importOutcome : ImportOutcome
  ctor : Nat → CtorResult
  call : Nat → CallResult

/-- The dict `{"ok": True, "payload": payload}`. -/
def cancel_ok_dict (payload : JVal) : JVal :=
  .jobj [("ok", .jbool true), ("payload", payload)]

/-- The dict `{"ok": False, "error": e}`. -/
def cancel_err_dict (e : String) : JVal :=
  .jobj [("ok", .jbool false), ("error", .jstr e)]

/-- Client instantiation (amazon.py lines 58-64): try shape 0, on `TypeError`
shape 1, on `TypeError` shape 2; only `TypeError` is caught, so any other
exception — and a `TypeError` from the final shape — propagates. -/
def instantiate_client (o : SpOracle) : Except PyExn Unit :=
  match o.ctor 0 with
  | .ok => .ok ()
  | .raised m => .error (.otherExn m)
  | .typeError _ =>
    match o.ctor 1 with
    | .ok => .ok ()
    | .raised m => .error (.otherExn m)
    | .typeError _ =>
      match o.ctor 2 with
      | .ok => .ok ()
      | .raised m => .error (.otherExn m)
      | .typeError m => .error (.typeError m)

/-- The guarded call cascade (amazon.py lines 66-87): shapes are tried until
one is accepted by the client; the outer handlers convert
`SellingApiException`, a `TypeError` after all shapes, and any other
exception into `ok=False` error dicts.  Returns the indices of the
shapes whose call actually executed (at most one) and the returned dict. -/
def perform_cancel_call (o : SpOracle) : List Nat × JVal :=
  match o.call 0 with
  | .accepted resp payloadAttr => ([0], cancel_ok_dict (payloadAttr.getD resp))
  | .sellingApiError m => ([0], cancel_err_dict m)
  | .raised m => ([0], cancel_err_dict ("Unexpected: " ++ m))
  | .typeError _ =>
    match o.call 1 with
    | .accepted resp payloadAttr => ([1], cancel_ok_dict (payloadAttr.getD resp))
    | .sellingApiError m => ([1], cancel_err_dict m)
    | .raised m => ([1], cancel_err_dict ("Unexpected: " ++ m))
    | .typeError _ =>
      match o.call 2 with
      | .accepted resp payloadAttr => ([2], cancel_ok_dict (payloadAttr.getD resp))
      | .sellingApiError m => ([2], cancel_err_dict m)
      | .raised m => ([2], cancel_err_dict ("Unexpected: " ++ m))
      | .typeError m => ([], cancel_err_dict ("Signature mismatch: " ++ m))

/-- Embedding of `amazon.cancel_mcf_fulfillment`: returns the executed-call
trace and either the returned dict or the escaping exception.  The order id
reaches only the external client, whose behaviour the oracle supplies. -/
def cancel_mcf_fulfillment (env : SpEnv) (o : SpOracle) (_order_id : String) :
    List Nat × Except PyExn JVal :=
  match o.importOutcome with
  | .bothFail m => ([], .ok (cancel_err_dict ("SP-API client import failed: " ++ m)))
  | _ =>
    match _creds env with
    | .error e => ([], .error e)
    | .ok _c =>
      let _use_sandbox := (env.SPAPI_SANDBOX.getD "1") = "1"
      match instantiate_client o with
      | .error e => ([], .error e)
      | .ok _ =>
        let r := perform_cancel_call o
        (r.1, .ok r.2)

/-! ### Fulfillment Adapter theorems -/

theorem perform_cancel_call_shape (o : SpOracle) :
    (perform_cancel_call o).1.length ≤ 1 ∧
      ((∃ p, (perform_cancel_call o).2 = cancel_ok_dict p) ∨
        (∃ e, (perform_cancel_call o).2 = cancel_err_dict e)) := by
  unfold perform_cancel_call
  cases h0 : o.call 0 with
  | accepted resp payloadAttr => exact ⟨by simp, Or.inl ⟨_, rfl⟩⟩
  | sellingApiError m => exact ⟨by simp, Or.inr ⟨_, rfl⟩⟩
  | raised m => exact ⟨by simp, Or.inr ⟨_, rfl⟩⟩
  | typeError m0 =>
    cases h1 : o.call 1 with
    | accepted resp payloadAttr => exact ⟨by simp, Or.inl ⟨_, rfl⟩⟩
    | sellingApiError m => exact ⟨by simp, Or.inr ⟨_, rfl⟩⟩
    | raised m => exact ⟨by simp, Or.inr ⟨_, rfl⟩⟩
    | typeError m1 =>
      cases h2 : o.call 2 with
      | accepted resp payloadAttr => exact ⟨by simp, Or.inl ⟨_, rfl⟩⟩
      | sellingApiError m => exact ⟨by simp, Or.inr ⟨_, rfl⟩⟩
      | raised m => exact ⟨by simp, Or.inr ⟨_, rfl⟩⟩
      | typeError m2 => exact ⟨by simp, Or.inr ⟨_, rfl⟩⟩

/-- C4 counterexample: with no credential environment variables set (and the
sp_api import succeeding), `cancel_mcf_fulfillment` does not return an
`ok=False` dict — it crashes with the uncaught `KeyError` raised by
`os.environ["REFRESH_TOKEN"]` inside `_creds`, and performs no attempt. -/
theorem C4_missing_creds_crash_cex :
    cancel_mcf_fulfillment
        ⟨none, none, none, none, none, none, none, none⟩
        ⟨.newOk, fun _ => .ok, fun _ => .typeError "t"⟩
        "Shopify #91057.1" =
      ([], .error (.keyError "REFRESH_TOKEN")) := rfl

theorem perform_cancel_call_sellingApi0 (o : SpOracle) (m : String)
    (h0 : o.call 0 = .sellingApiError m) :
    perform_cancel_call o = ([0], cancel_err_dict m) := by
  unfold perform_cancel_call
  rw [h0]

theorem perform_cancel_call_raised0 (o : SpOracle) (m : String)
    (h0 : o.call 0 = .raised m) :
    perform_cancel_call o = ([0], cancel_err_dict ("Unexpected: " ++ m)) := by
  unfold perform_cancel_call
  rw [h0]

theorem perform_cancel_call_sellingApi1 (o : SpOracle) (m0 m : String)
    (h0 : o.call 0 = .typeError m0) (h1 : o.call 1 = .sellingApiError m) :
    perform_cancel_call o = ([1], cancel_err_dict m) := by
  unfold perform_cancel_call
  rw [h0, h1]

theorem perform_cancel_call_raised1 (o : SpOracle) (m0 m : String)
    (h0 : o.call 0 = .typeError m0) (h1 : o.call 1 = .raised m) :
    perform_cancel_call o = ([1], cancel_err_dict ("Unexpected: " ++ m)) := by
  unfold perform_cancel_call
  rw [h0, h1]

theorem perform_cancel_call_sellingApi2 (o : SpOracle) (m0 m1 m : String)
    (h0 : o.call 0 = .typeError m0) (h1 : o.call 1 = .typeError m1)
    (h2 : o.call 2 = .sellingApiError m) :
    perform_cancel_call o = ([2], cancel_err_dict m) := by
  unfold perform_cancel_call
  rw [h0, h1, h2]

theorem perform_cancel_call_raised2 (o : SpOracle) (m0 m1 m : String)
    (h0 : o.call 0 = .typeError m0) (h1 : o.call 1 = .typeError m1)
    (h2 : o.call 2 = .raised m) :
    perform_cancel_call o = ([2], cancel_err_dict ("Unexpected: " ++ m)) := by
  unfold perform_cancel_call
  rw [h0, h1, h2]

theorem perform_cancel_call_allTypeError (o : SpOracle) (m0 m1 m2 : String)
    (h0 : o.call 0 = .typeError m0) (h1 : o.call 1 = .typeError m1)
    (h2 : o.call 2 = .typeError m2) :
    perform_cancel_call o = ([], cancel_err_dict ("Signature mismatch: " ++ m2)) := by
  unfold perform_cancel_call
  rw [h0, h1, h2]

theorem cancel_call_phase (env : SpEnv) (o : SpOracle) (order_id : String)
    (himp : o.importOutcome = .newOk ∨ o.importOutcome = .oldOk)
    (c : Creds) (hc : _creds env = .ok c) (hk : instantiate_client o = .ok ()) :
    cancel_mcf_fulfillment env o order_id =
      ((perform_cancel_call o).1, .ok (perform_cancel_call o).2) := by
  unfold cancel_mcf_fulfillment
  rcases himp with h | h
  · rw [h, hc, hk]
  · rw [h, hc, hk]

/-- C4 amended: `cancel_mcf_fulfillment` performs at most one executed
cancellation attempt per run with no retry; an import failure is returned as
an `ok=False` error dict; and once the imports succeed, the credentials
load, and a constructor shape is accepted, every call-phase outcome is
returned as a dict rather than a crash, with each failure mode mapped to its
`ok=False` error dict — a provider business error to its own message, an
unexpected exception to `"Unexpected: ..."`, and rejection of all three
signature shapes to `"Signature mismatch: ..."`.  However, missing required
credential environment variables raise an uncaught `KeyError`, and
non-`TypeError` constructor failures propagate, so the never-crash part of
the claim holds only from the call phase on. -/
theorem C4_single_attempt_and_error_dicts (env : SpEnv) (o : SpOracle)
    (order_id : String) :
    (cancel_mcf_fulfillment env o order_id).1.length ≤ 1 ∧
    (∀ m, o.importOutcome = .bothFail m →
      (cancel_mcf_fulfillment env o order_id).2 =
        .ok (cancel_err_dict ("SP-API client import failed: " ++ m))) ∧
    ((o.importOutcome = .newOk ∨ o.importOutcome = .oldOk) →
      ∀ c, _creds env = .ok c → instantiate_client o = .ok () →
      ((∃ p, (cancel_mcf_fulfillment env o order_id).2 = .ok (cancel_ok_dict p)) ∨
        (∃ e, (cancel_mcf_fulfillment env o order_id).2 = .ok (cancel_err_dict e))) ∧
      (∀ m, o.call 0 = .sellingApiError m →
        (cancel_mcf_fulfillment env o order_id).2 = .ok (cancel_err_dict m)) ∧
      (∀ m, o.call 0 = .raised m →
        (cancel_mcf_fulfillment env o order_id).2 =
          .ok (cancel_err_dict ("Unexpected: " ++ m))) ∧
      (∀ m0 m, o.call 0 = .typeError m0 → o.call 1 = .sellingApiError m →
        (cancel_mcf_fulfillment env o order_id).2 = .ok (cancel_err_dict m)) ∧
      (∀ m0 m, o.call 0 = .typeError m0 → o.call 1 = .raised m →
        (cancel_mcf_fulfillment env o order_id).2 =
          .ok (cancel_err_dict ("Unexpected: " ++ m))) ∧
      (∀ m0 m1 m, o.call 0 = .typeError m0 → o.call 1 = .typeError m1 →
        o.call 2 = .sellingApiError m →
        (cancel_mcf_fulfillment env o order_id).2 = .ok (cancel_err_dict m)) ∧
      (∀ m0 m1 m, o.call 0 = .typeError m0 → o.call 1 = .typeError m1 →
        o.call 2 = .raised m →
        (cancel_mcf_fulfillment env o order_id).2 =
          .ok (cancel_err_dict ("Unexpected: " ++ m))) ∧
      (∀ m0 m1 m2, o.call 0 = .typeError m0 → o.call 1 = .typeError m1 →
        o.call 2 = .typeError m2 →
        (cancel_mcf_fulfillment env o order_id).2 =
          .ok (cancel_err_dict ("Signature mismatch: " ++ m2)))) := by
  refine ⟨?_, ?_, ?_⟩
  · unfold cancel_mcf_fulfillment
    cases hi : o.importOutcome with
    | bothFail m => simp
    | newOk =>
        cases hc : _creds env with
        | error e => simp
        | ok c =>
            cases hk : instantiate_client o with
            | error e => simp
            | ok u => simpa using (perform_cancel_call_shape o).1
    | oldOk =>
        cases hc : _creds env with
        | error e => simp
        | ok c =>
            cases hk : instantiate_client o with
            | error e => simp
            | ok u => simpa using (perform_cancel_call_shape o).1
  · intro m hm
    unfold cancel_mcf_fulfillment
    rw [hm]
  · intro himp c hc hk
    have hP := cancel_call_phase env o order_id himp c hc hk
    rw [hP]
    refine ⟨?_, ?_, ?_, ?_, ?_, ?_, ?_, ?_⟩
    · rcases (perform_cancel_call_shape o).2 with ⟨p, hp⟩ | ⟨e, he⟩
      · exact Or.inl ⟨p, by simp [hp]⟩
      · exact Or.inr ⟨e, by simp [he]⟩
    · intro m hm
      rw [perform_cancel_call_sellingApi0 o m hm]
    · intro m hm
      rw [perform_cancel_call_raised0 o m hm]
    · intro m0 m h0 h1
      rw [perform_cancel_call_sellingApi1 o m0 m h0 h1]
    · intro m0 m h0 h1
      rw [perform_cancel_call_raised1 o m0 m h0 h1]
    · intro m0 m1 m h0 h1 h2
      rw [perform_cancel_call_sellingApi2 o m0 m1 m h0 h1 h2]
    · intro m0 m1 m h0 h1 h2
      rw [perform_cancel_call_raised2 o m0 m1 m h0 h1 h2]
    · intro m0 m1 m2 h0 h1 h2
      rw [perform_cancel_call_allTypeError o m0 m1 m2 h0 h1 h2]

/-- C4 amended witness: a run with full credentials, a succeeding import, an
accepted constructor, and the provider reporting a business error on the
first call shape — at most one executed attempt, and the returned dict is
exactly the `ok=False` error dict carrying the provider's message. -/
theorem C4_single_attempt_and_error_dicts_witness :
    ((cancel_mcf_fulfillment
        ⟨some "rt", some "id", none, some "sec", some "ak", some "sk", none, none⟩
        ⟨.newOk, fun _ => .ok, fun _ => .sellingApiError "Order not cancellable"⟩
        "Shopify #91057.1").1.length ≤ 1) ∧
    (cancel_mcf_fulfillment
        ⟨some "rt", some "id", none, some "sec", some "ak", some "sk", none, none⟩
        ⟨.newOk, fun _ => .ok, fun _ => .sellingApiError "Order not cancellable"⟩
        "Shopify #91057.1").2 =
      .ok (cancel_err_dict "Order not cancellable") :=
  ⟨(C4_single_attempt_and_error_dicts _ _ _).1,
    ((C4_single_attempt_and_error_dicts
        ⟨some "rt", some "id", none, some "sec", some "ak", some "sk", none, none⟩
        ⟨.newOk, fun _ => .ok, fun _ => .sellingApiError "Order not cancellable"⟩
        "Shopify #91057.1").2.2 (Or.inl rfl)
      { refresh_token := "rt", lwa_app_id := some "id", lwa_client_secret := "sec",
        aws_access_key := "ak", aws_secret_key := "sk", role_arn := none }
      rfl rfl).2.1 "Order not cancellable" rfl⟩

/-! ## app.py — the decision pipeline

`main` is embedded from the point where the classification dict `cls` is
available (app.py line 51): everything upstream (dotenv, rules file, ticket
fetch, classifier call) supplies the arguments.  The Re:amaze helpers and the
audit insert are collaborators; the run is modelled as the ordered list of
side-effect events it performs.  `add_private_note` returns `(ok, text)` and
the app uses `ok`; `add_tags` / `assign_to` results are discarded by `main`,
so only the note result is an oracle input. -/

/-- The rules configuration consumed by `main` (already parsed:
`bool(rules.get("dry_run", True))`, `rules["tags"].get(...)`,
`rules.get("assignee")`). -/
structure Rules where
  dry_run : Bool
  tags_success : List String
  tags_failure : List String
  tags_not_cancellation : List String
  assignee : Option String

/-- Observable behaviour of the Re:amaze collaborator for this run: the `ok`
component returned by `add_private_note`. -/
structure TicketOracle where
  note_ok : Bool

/-- The private-note bodies composed by `main`, abstracted to the data each
branch interpolates (the literal f-string/json.dumps formatting carries no
additional information). -/
inductive NoteBody where
  | not_cancellation_note (cls : JVal)
  | missing_order_id_note
  | dry_run_note (payload : JVal) (cls : JVal)
  | cancel_success_note (order_id : String) (payload : JVal)
  | cancel_failure_note (order_id : String) (error : JVal)

/-- Side effects performed by one run, in order.  `action_logged` is the
`storage.log_action` INSERT (one AuditRecord); `cancel_invoked` marks the
call into `cancel_mcf_fulfillment`. -/
inductive Event where
  | private_note (slug : String) (body : NoteBody)
  | tags_added (slug : String) (tags : List String)
  | assigned (slug : String) (assignee : Option String)
  | cancel_invoked (order_id : String)
  | action_logged (slug : String) (order_id : JVal) (intent : String)
      (success : Bool) (result : JVal)

/-- The five terminal states of the Decision Engine, labelling `main`'s
return points (spec section 4.4). -/
inductive TerminalState where
  | NotedNotCancellation
  | NotedMissingOrderId
  | NotedDryRunSimulated
  | CancelledSuccess
  | CancelledFailure

/-- Result of one run: events in order, the terminal state reached (none if
the run crashed first), and the escaping exception if any. -/
structure RunResult where
  events : List Event
  terminal : Option TerminalState
  exn : Option PyExn

/-- Python `v == some_string` for a dynamic value (only a str compares equal
to a str). -/
def isStrEq (v : JVal) (s : String) : Bool :=
  match v with
  | .jstr s2 => s2 = s
  | _ => false

/-- Subscript access `v[k]` observed as an option (used only where the key is
present by construction). -/
def jindex (v : JVal) (k : String) : Option JVal :=
  match v with
  | .jobj fs => jget fs k
  | _ => none

/-- The app's `order_id` variable after app.py lines 52-54:
`order_id = cls.get("order_id")`, then `if order_id: order_id =
normalize_shopify_order_id(order_id)`.  A falsy value is kept as-is; a truthy
string is normalized; a truthy non-string crashes inside `.strip()`. -/
inductive OrderIdVal where
  | falsy (v : JVal)
  | strVal (s : String)

def orderIdAsJVal : OrderIdVal → JVal
  | .falsy v => v
  | .strVal s => .jstr s

def resolve_order_id (cls : List (String × JVal)) : Except PyExn OrderIdVal :=
  let v := (jget cls "order_id").getD .jnull
  if pyTruthy v then
    match v with
    | .jstr s => .ok (.strVal (normalize_shopify_order_id s))
    | _ => .error (.attributeError "object has no attribute strip")
  else .ok (.falsy v)

/-- Embedding of `app.main` from line 51 on, given the classification dict.
Each branch mirrors one return point of the source. -/
def mainRun (rules : Rules) (sp_env : SpEnv) (sp_o : SpOracle)
    (t : TicketOracle) (slug : String) (cls : List (String × JVal)) : RunResult :=
  -- app.py line 51: intent = cls.get("intent", "not_cancellation")
  match resolve_order_id cls with
  | .error e => ⟨[], none, some e⟩
  | .ok oid =>
    if isStrEq ((jget cls "intent").getD (.jstr "not_cancellation")) "cancel_order" = false then
      -- app.py lines 56-66: not a cancellation
      ⟨[.private_note slug (.not_cancellation_note (.jobj cls)),
        .tags_added slug rules.tags_not_cancellation,
        .assigned slug rules.assignee,
        .action_logged slug (orderIdAsJVal oid) "not_cancellation" t.note_ok
          (.jobj [("classifier", .jobj cls)])],
       some .NotedNotCancellation, none⟩
    else
      match oid with
      | .falsy _ =>
        -- app.py lines 69-79: cancellation intent but no order id
        ⟨[.private_note slug .missing_order_id_note,
          .tags_added slug rules.tags_failure,
          .assigned slug rules.assignee,
          .action_logged slug .jnull "cancel_order" false
            (.jobj [("error", .jstr "missing_order_id"), ("classifier", .jobj cls)])],
         some .NotedMissingOrderId, none⟩
      | .strVal s =>
        if s = "" then
          ⟨[.private_note slug .missing_order_id_note,
            .tags_added slug rules.tags_failure,
            .assigned slug rules.assignee,
            .action_logged slug .jnull "cancel_order" false
              (.jobj [("error", .jstr "missing_order_id"), ("classifier", .jobj cls)])],
           some .NotedMissingOrderId, none⟩
        else
          -- app.py line 82: payload = build_cancel_payload(order_id), shown even in dry-run
          if rules.dry_run then
            -- app.py lines 84-96
            ⟨[.private_note slug
                (.dry_run_note (.jobj (build_cancel_payload s)) (.jobj cls)),
              .tags_added slug rules.tags_success,
              .assigned slug rules.assignee,
              .action_logged slug (.jstr s) "cancel_order" true
                (.jobj [("dry_run", .jbool true),
                        ("payload", .jobj (build_cancel_payload s)),
                        ("classifier", .jobj cls)])],
             some .NotedDryRunSimulated, none⟩
          else
            -- app.py lines 99-119: the real call
            match cancel_mcf_fulfillment sp_env sp_o s with
            | (_, .error e) => ⟨[.cancel_invoked s], none, some e⟩
            | (_, .ok result) =>
              if pyTruthy ((jindex result "ok").getD .jnull) then
                ⟨[.cancel_invoked s,
                  .private_note slug
                    (.cancel_success_note s ((jindex result "payload").getD .jnull)),
                  .tags_added slug rules.tags_success,
                  .assigned slug rules.assignee,
                  .action_logged slug (.jstr s) "cancel_order" true result],
                 some .CancelledSuccess, none⟩
              else
                ⟨[.cancel_invoked s,
                  .private_note slug
                    (.cancel_failure_note s ((jindex result "error").getD .jnull)),
                  .tags_added slug rules.tags_failure,
                  .assigned slug rules.assignee,
                  .action_logged slug (.jstr s) "cancel_order" false result],
                 some .CancelledFailure, none⟩

/-- Recognizer for audit-write events. -/
def isLogEvent : Event → Bool
  | .action_logged _ _ _ _ _ => true
  | _ => false

/-- Recognizer for invocations of the fulfillment cancel operation. -/
def isCancelInvoked : Event → Bool
  | .cancel_invoked _ => true
  | _ => false

/-! ### Decision Engine theorems -/

theorem resolve_order_id_ok (cls : List (String × JVal))
    (hoid : (jget cls "order_id").getD .jnull = .jnull ∨
      ∃ s, (jget cls "order_id").getD .jnull = .jstr s) :
    ∃ oidv, resolve_order_id cls = .ok oidv := by
  unfold resolve_order_id
  rcases hoid with h | ⟨s, h⟩ <;> rw [h]
  · exact ⟨_, rfl⟩
  · by_cases hs : s = ""
    · subst hs; exact ⟨_, rfl⟩
    · exact ⟨.strVal (normalize_shopify_order_id s), by simp [pyTruthy, hs]⟩

/-- C6: every run of the pipeline that terminates without an escaping
exception performs exactly one audit write (`log_action`), whatever the
classification dict, rules, note result and fulfillment behaviour — no
terminal path writes zero or more than one AuditRecord. -/
theorem C6_exactly_one_audit_write (rules : Rules) (sp_env : SpEnv)
    (sp_o : SpOracle) (t : TicketOracle) (slug : String)
    (cls : List (String × JVal))
    (hok : (mainRun rules sp_env sp_o t slug cls).exn = none) :
    ((mainRun rules sp_env sp_o t slug cls).events.filter isLogEvent).length = 1 := by
  revert hok
  unfold mainRun
  split
  · intro h; simp at h
  · split
    · intro _; rfl
    · split
      · intro _; rfl
      · split
        · intro _; rfl
        · split
          · intro _; rfl
          · split
            · intro h; simp at h
            · split
              · intro _; rfl
              · intro _; rfl

/-- C6 witness: a concrete dry-run cancellation run, which terminates
normally and writes exactly one audit record. -/
theorem C6_exactly_one_audit_write_witness :
    ((mainRun ⟨true, ["auto"], ["needs-human"], ["ignored"], some "Agent"⟩
        ⟨none, none, none, none, none, none, none, none⟩
        ⟨.newOk, fun _ => .ok, fun _ => .typeError "t"⟩
        ⟨true⟩ "conv-1"
        [("intent", .jstr "cancel_order"), ("order_id", .jstr "91057")]).events.filter
      isLogEvent).length = 1 :=
  C6_exactly_one_audit_write _ _ _ _ _ _ rfl

/-- C1: with intent `"cancel_order"`, a string order id that is truthy and
normalizes to a non-empty id, and `dry_run = true`, the run terminates in
`NotedDryRunSimulated` without invoking `cancel_mcf_fulfillment`, and its
single audit write has intent `"cancel_order"`, `success = true`, and a
result payload whose `dry_run` field is `true` (alongside the would-be
payload from `build_cancel_payload`). -/
theorem C1_dry_run_never_cancels (rules : Rules) (sp_env : SpEnv)
    (sp_o : SpOracle) (t : TicketOracle) (slug : String)
    (cls : List (String × JVal)) (s : String)
    (hint : jget cls "intent" = some (.jstr "cancel_order"))
    (hoid : jget cls "order_id" = some (.jstr s))
    (hs : s ≠ "")
    (hn : normalize_shopify_order_id s ≠ "")
    (hdry : rules.dry_run = true) :
    (mainRun rules sp_env sp_o t slug cls).exn = none ∧
    (mainRun rules sp_env sp_o t slug cls).terminal = some .NotedDryRunSimulated ∧
    (mainRun rules sp_env sp_o t slug cls).events.filter isCancelInvoked = [] ∧
    ∃ res, (mainRun rules sp_env sp_o t slug cls).events.filter isLogEvent =
        [.action_logged slug (.jstr (normalize_shopify_order_id s)) "cancel_order" true res] ∧
      jindex res "dry_run" = some (.jbool true) := by
  have hre : resolve_order_id cls = .ok (.strVal (normalize_shopify_order_id s)) := by
    unfold resolve_order_id
    rw [hoid]
    simp [pyTruthy, hs]
  have hint2 : (jget cls "intent").getD (.jstr "not_cancellation") = .jstr "cancel_order" := by
    rw [hint]; rfl
  unfold mainRun
  rw [hint2, hre]
  simp only [isStrEq]
  rw [if_neg (by simp)]
  rw [if_neg hn]
  rw [if_pos hdry]
  refine ⟨rfl, rfl, rfl, ?_⟩
  exact ⟨_, rfl, rfl⟩

/-- C1 witness: the spec's end-to-end example — intent cancel_order, raw
order id `"91057"`, dry-run mode. -/
theorem C1_dry_run_never_cancels_witness :
    (mainRun ⟨true, ["auto"], ["needs-human"], ["ignored"], some "Agent"⟩
        ⟨none, none, none, none, none, none, none, none⟩
        ⟨.newOk, fun _ => .ok, fun _ => .typeError "t"⟩
        ⟨true⟩ "conv-1"
        [("intent", .jstr "cancel_order"), ("order_id", .jstr "91057")]).exn = none ∧
    (mainRun ⟨true, ["auto"], ["needs-human"], ["ignored"], some "Agent"⟩
        ⟨none, none, none, none, none, none, none, none⟩
        ⟨.newOk, fun _ => .ok, fun _ => .typeError "t"⟩
        ⟨true⟩ "conv-1"
        [("intent", .jstr "cancel_order"), ("order_id", .jstr "91057")]).terminal =
      some .NotedDryRunSimulated ∧
    (mainRun ⟨true, ["auto"], ["needs-human"], ["ignored"], some "Agent"⟩
        ⟨none, none, none, none, none, none, none, none⟩
        ⟨.newOk, fun _ => .ok, fun _ => .typeError "t"⟩
        ⟨true⟩ "conv-1"
        [("intent", .jstr "cancel_order"), ("order_id", .jstr "91057")]).events.filter
      isCancelInvoked = [] ∧
    ∃ res, (mainRun ⟨true, ["auto"], ["needs-human"], ["ignored"], some "Agent"⟩
        ⟨none, none, none, none, none, none, none, none⟩
        ⟨.newOk, fun _ => .ok, fun _ => .typeError "t"⟩
        ⟨true⟩ "conv-1"
        [("intent", .jstr "cancel_order"), ("order_id", .jstr "91057")]).events.filter
      isLogEvent =
        [.action_logged "conv-1" (.jstr (normalize_shopify_order_id "91057"))
          "cancel_order" true res] ∧
      jindex res "dry_run" = some (.jbool true) :=
  C1_dry_run_never_cancels _ _ _ _ _ _ "91057" rfl rfl (by decide) (by decide) rfl

/-- C8: a classification whose intent is `"not_cancellation"` always reaches
the `NotedNotCancellation` terminal state, for every order id permitted by
the data model (absent/null or any string) and every dry-run flag, and the
fulfillment cancel operation is never invoked. -/
theorem C8_not_cancellation_terminal (rules : Rules) (sp_env : SpEnv)
    (sp_o : SpOracle) (t : TicketOracle) (slug : String)
    (cls : List (String × JVal))
    (hint : jget cls "intent" = some (.jstr "not_cancellation"))
    (hoid : (jget cls "order_id").getD .jnull = .jnull ∨
      ∃ s, (jget cls "order_id").getD .jnull = .jstr s) :
    (mainRun rules sp_env sp_o t slug cls).terminal = some .NotedNotCancellation ∧
    (mainRun rules sp_env sp_o t slug cls).exn = none ∧
    (mainRun rules sp_env sp_o t slug cls).events.filter isCancelInvoked = [] := by
  obtain ⟨oidv, hre⟩ := resolve_order_id_ok cls hoid
  have hint2 : (jget cls "intent").getD (.jstr "not_cancellation") =
      .jstr "not_cancellation" := by rw [hint]; rfl
  unfold mainRun
  rw [hint2, hre]
  simp only [isStrEq]
  rw [if_pos (by simp)]
  exact ⟨rfl, rfl, rfl⟩

/-- C8 witness: a not-cancellation classification with a present order id and
dry_run = false. -/
theorem C8_not_cancellation_terminal_witness :
    (mainRun ⟨false, [], ["needs-human"], ["not-cancel"], none⟩
        ⟨none, none, none, none, none, none, none, none⟩
        ⟨.newOk, fun _ => .ok, fun _ => .typeError "t"⟩
        ⟨false⟩ "conv-2"
        [("intent", .jstr "not_cancellation"), ("order_id", .jstr "91057")]).terminal =
      some .NotedNotCancellation ∧
    (mainRun ⟨false, [], ["needs-human"], ["not-cancel"], none⟩
        ⟨none, none, none, none, none, none, none, none⟩
        ⟨.newOk, fun _ => .ok, fun _ => .typeError "t"⟩
        ⟨false⟩ "conv-2"
        [("intent", .jstr "not_cancellation"), ("order_id", .jstr "91057")]).exn = none ∧
    (mainRun ⟨false, [], ["needs-human"], ["not-cancel"], none⟩
        ⟨none, none, none, none, none, none, none, none⟩
        ⟨.newOk, fun _ => .ok, fun _ => .typeError "t"⟩
        ⟨false⟩ "conv-2"
        [("intent", .jstr "not_cancellation"), ("order_id", .jstr "91057")]).events.filter
      isCancelInvoked = [] :=
  C8_not_cancellation_terminal _ _ _ _ _ _ rfl (Or.inr ⟨"91057", rfl⟩)

/-- C9: with intent `"cancel_order"` and a null or empty order id, the run
always reaches `NotedMissingOrderId` — whatever the dry-run flag — with a
single `success=false` audit record carrying the `missing_order_id` error,
and the fulfillment cancel operation is never invoked. -/
theorem C9_missing_order_id_terminal (rules : Rules) (sp_env : SpEnv)
    (sp_o : SpOracle) (t : TicketOracle) (slug : String)
    (cls : List (String × JVal))
    (hint : jget cls "intent" = some (.jstr "cancel_order"))
    (hoid : (jget cls "order_id").getD .jnull = .jnull ∨
      (jget cls "order_id").getD .jnull = .jstr "") :
    (mainRun rules sp_env sp_o t slug cls).terminal = some .NotedMissingOrderId ∧
    (mainRun rules sp_env sp_o t slug cls).exn = none ∧
    (mainRun rules sp_env sp_o t slug cls).events.filter isCancelInvoked = [] ∧
    (mainRun rules sp_env sp_o t slug cls).events.filter isLogEvent =
      [.action_logged slug .jnull "cancel_order" false
        (.jobj [("error", .jstr "missing_order_id"), ("classifier", .jobj cls)])] := by
  have hint2 : (jget cls "intent").getD (.jstr "not_cancellation") =
      .jstr "cancel_order" := by rw [hint]; rfl
  have hre : resolve_order_id cls = .ok (.falsy ((jget cls "order_id").getD .jnull)) := by
    unfold resolve_order_id
    rcases hoid with h | h <;> rw [h] <;> rfl
  unfold mainRun
  rw [hint2, hre]
  simp only [isStrEq]
  rw [if_neg (by simp)]
  exact ⟨rfl, rfl, rfl, rfl⟩

/-- C9 witness: cancel intent, null order id, dry_run = false. -/
theorem C9_missing_order_id_terminal_witness :
    (mainRun ⟨false, [], ["needs-human"], [], none⟩
        ⟨none, none, none, none, none, none, none, none⟩
        ⟨.newOk, fun _ => .ok, fun _ => .typeError "t"⟩
        ⟨true⟩ "conv-3"
        [("intent", .jstr "cancel_order"), ("order_id", .jnull)]).terminal =
      some .NotedMissingOrderId ∧
    (mainRun ⟨false, [], ["needs-human"], [], none⟩
        ⟨none, none, none, none, none, none, none, none⟩
        ⟨.newOk, fun _ => .ok, fun _ => .typeError "t"⟩
        ⟨true⟩ "conv-3"
        [("intent", .jstr "cancel_order"), ("order_id", .jnull)]).exn = none ∧
    (mainRun ⟨false, [], ["needs-human"], [], none⟩
        ⟨none, none, none, none, none, none, none, none⟩
        ⟨.newOk, fun _ => .ok, fun _ => .typeError "t"⟩
        ⟨true⟩ "conv-3"
        [("intent", .jstr "cancel_order"), ("order_id", .jnull)]).events.filter
      isCancelInvoked = [] ∧
    (mainRun ⟨false, [], ["needs-human"], [], none⟩
        ⟨none, none, none, none, none, none, none, none⟩
        ⟨.newOk, fun _ => .ok, fun _ => .typeError "t"⟩
        ⟨true⟩ "conv-3"
        [("intent", .jstr "cancel_order"), ("order_id", .jnull)]).events.filter
      isLogEvent =
      [.action_logged "conv-3" .jnull "cancel_order" false
        (.jobj [("error", .jstr "missing_order_id"),
                ("classifier", .jobj [("intent", .jstr "cancel_order"),
                                      ("order_id", .jnull)])])] :=
  C9_missing_order_id_terminal _ _ _ _ _ _ rfl (Or.inl rfl)

/-- C10 counterexample: a classification the classifier can pass through
unvalidated — intent `"refund"` with a numeric order id — does NOT reach the
not-cancellation terminal path: the run crashes in
`normalize_shopify_order_id` (`.strip()` on a non-string raises
`AttributeError` at app.py line 54, before the intent branch) and writes no
audit record at all. -/
theorem C10_nonstring_order_id_crash_cex :
    mainRun ⟨true, [], [], ["not-cancel"], none⟩
        ⟨none, none, none, none, none, none, none, none⟩
        ⟨.newOk, fun _ => .ok, fun _ => .typeError "t"⟩
        ⟨true⟩ "conv-4"
        [("intent", .jstr "refund"), ("order_id", .jnum 91057)] =
      ⟨[], none, some (.attributeError "object has no attribute strip")⟩ := rfl

/-- C10 amended: for every classification whose intent field is any string
other than `"cancel_order"` — `"refund"`, `""`, etc., not only
`"not_cancellation"` — and whose order_id is absent, null, or a string, the
pipeline takes the not-cancellation terminal path, applies the
`not_cancellation` tag set, writes exactly one AuditRecord whose intent field
is the literal `"not_cancellation"` (not the classifier's value), and never
invokes the fulfillment cancel operation.  (The order-id restriction is
forced: a truthy non-string order id crashes normalization before the intent
branch.) -/
theorem C10_unexpected_intent_not_cancellation_path (rules : Rules)
    (sp_env : SpEnv) (sp_o : SpOracle) (t : TicketOracle) (slug : String)
    (cls : List (String × JVal)) (i : String)
    (hint : jget cls "intent" = some (.jstr i))
    (hi : i ≠ "cancel_order")
    (hoid : (jget cls "order_id").getD .jnull = .jnull ∨
      ∃ s, (jget cls "order_id").getD .jnull = .jstr s) :
    (mainRun rules sp_env sp_o t slug cls).terminal = some .NotedNotCancellation ∧
    (mainRun rules sp_env sp_o t slug cls).exn = none ∧
    (mainRun rules sp_env sp_o t slug cls).events.filter isCancelInvoked = [] ∧
    Event.tags_added slug rules.tags_not_cancellation ∈
      (mainRun rules sp_env sp_o t slug cls).events ∧
    ∃ v, (mainRun rules sp_env sp_o t slug cls).events.filter isLogEvent =
      [.action_logged slug v "not_cancellation" t.note_ok
        (.jobj [("classifier", .jobj cls)])] := by
  obtain ⟨oidv, hre⟩ := resolve_order_id_ok cls hoid
  have hint2 : (jget cls "intent").getD (.jstr "not_cancellation") = .jstr i := by
    rw [hint]; rfl
  unfold mainRun
  rw [hint2, hre]
  simp only [isStrEq]
  rw [if_pos (by simp [hi])]
  exact ⟨rfl, rfl, rfl, by simp, ⟨orderIdAsJVal oidv, rfl⟩⟩

/-- C10 amended witness: intent `"refund"` with a string order id. -/
theorem C10_unexpected_intent_witness :
    (mainRun ⟨true, [], [], ["not-cancel"], none⟩
        ⟨none, none, none, none, none, none, none, none⟩
        ⟨.newOk, fun _ => .ok, fun _ => .typeError "t"⟩
        ⟨false⟩ "conv-5"
        [("intent", .jstr "refund"), ("order_id", .jstr "91057")]).terminal =
      some .NotedNotCancellation ∧
    (mainRun ⟨true, [], [], ["not-cancel"], none⟩
        ⟨none, none, none, none, none, none, none, none⟩
        ⟨.newOk, fun _ => .ok, fun _ => .typeError "t"⟩
        ⟨false⟩ "conv-5"
        [("intent", .jstr "refund"), ("order_id", .jstr "91057")]).exn = none ∧
    (mainRun ⟨true, [], [], ["not-cancel"], none⟩
        ⟨none, none, none, none, none, none, none, none⟩
        ⟨.newOk, fun _ => .ok, fun _ => .typeError "t"⟩
        ⟨false⟩ "conv-5"
        [("intent", .jstr "refund"), ("order_id", .jstr "91057")]).events.filter
      isCancelInvoked = [] ∧
    Event.tags_added "conv-5" ["not-cancel"] ∈
      (mainRun ⟨true, [], [], ["not-cancel"], none⟩
        ⟨none, none, none, none, none, none, none, none⟩
        ⟨.newOk, fun _ => .ok, fun _ => .typeError "t"⟩
        ⟨false⟩ "conv-5"
        [("intent", .jstr "refund"), ("order_id", .jstr "91057")]).events ∧
    ∃ v, (mainRun ⟨true, [], [], ["not-cancel"], none⟩
        ⟨none, none, none, none, none, none, none, none⟩
        ⟨.newOk, fun _ => .ok, fun _ => .typeError "t"⟩
        ⟨false⟩ "conv-5"
        [("intent", .jstr "refund"), ("order_id", .jstr "91057")]).events.filter
      isLogEvent =
      [.action_logged "conv-5" v "not_cancellation" false
        (.jobj [("classifier",
          .jobj [("intent", .jstr "refund"), ("order_id", .jstr "91057")])])] :=
  C10_unexpected_intent_not_cancellation_path _ _ _ _ _ _ "refund" rfl (by decide)
    (Or.inr ⟨"91057", rfl⟩)
